import Mathlib

/-!
Shallow embedding of the `SCVI` model class defined in
`src/scvi_tutorials/scvi_annotated.ipynb`, together with the structural
contract of the external scvi-tools collaborators it calls
(data registration, training, latent-embedding extraction).

The notebook defines the `SCVI` class (`__init__`, `setup_anndata`, class
attributes) and a four-line usage script.  The class body is embedded
directly from the source.  The external library pieces it delegates to
(`AnnDataManager.register_fields`, `_init_library_size`, the training
mixin and the embedding mixin) are not part of the repository source;
they are modelled from the spec's structural contract, each such
definition carrying a doc comment starting `Modelled from the spec:`.
-/

/-- The logical roles a dataset column/layer can be registered under,
mirroring `REGISTRY_KEYS` used in `setup_anndata`
(`X_KEY`, `BATCH_KEY`, `LABELS_KEY`, `SIZE_FACTOR_KEY`, `CAT_COVS_KEY`,
`CONT_COVS_KEY`). -/
inductive RegistryKey
  | X
  | batch
  | labels
  | sizeFactor
  | catCovs
  | contCovs
deriving DecidableEq, Repr

/-- `ADATA_MINIFY_TYPE`: the minified-AnnData forms.  The notebook only
tests against `LATENT_POSTERIOR`. -/
inductive MinifyType
  | latentPosterior
deriving DecidableEq, Repr

/-- An AnnData dataset, as the notebook uses it: an observation-by-feature
count matrix (`X`, possibly absent), named alternative count layers,
categorical per-observation annotation columns (`obs`), numeric
per-observation annotation columns, the per-observation embedding
side-table (`obsm`), and an optional minified-data marker. -/
structure AnnData where
  n_obs : Nat
  n_vars : Nat
  X : Option (List (List Nat))
  layers : List (String × List (List Nat))
  obsCat : List (String × List String)
  obsNum : List (String × List ℚ)
  obsm : List (String × List (List ℚ))
  minifyType : Option MinifyType
deriving DecidableEq, Repr

/-- The keyword arguments of `SCVI.setup_anndata` (the column-name-to-role
declarations). -/
structure SetupArgs where
  layer : Option String
  batch_key : Option String
  labels_key : Option String
  size_factor_key : Option String
  categorical_covariate_keys : Option (List String)
  continuous_covariate_keys : Option (List String)
deriving DecidableEq, Repr

/-- Registration / configuration errors signalled by the registration
step, each naming the offending role or column (spec section 7:
"signal a configuration error naming the offending role/column"). -/
inductive RegError
  | missingRole (role : RegistryKey)
  | unknownColumn (column : String)
  | incompatibleShape (role : RegistryKey)
deriving DecidableEq, Repr

/-- The role or column an error names. -/
def RegError.offender : RegError → RegistryKey ⊕ String
  | .missingRole r => Sum.inl r
  | .unknownColumn c => Sum.inr c
  | .incompatibleShape r => Sum.inl r

/-- Summary statistics derived from a registration
(`self.summary_stats` in `SCVI.__init__`). -/
structure SummaryStats where
  n_vars : Nat
  n_batch : Nat
  n_labels : Nat
  n_extra_categorical_covs : Nat
  n_extra_continuous_covs : Nat
deriving DecidableEq, Repr

/-- The stored mapping produced by a successful registration: which roles
have a registered source (`data_registry`), the derived summary
statistics, the per-categorical-covariate category counts
(`n_cats_per_key`), and the recorded setup arguments
(`setup_method_args`). -/
structure Registration where
  dataRegistry : List RegistryKey
  summaryStats : SummaryStats
  n_cats_per_key : List Nat
  setup_method_args : SetupArgs
deriving DecidableEq, Repr

/-- Modelled from the spec: resolution of the count-matrix source by
`LayerField(REGISTRY_KEYS.X_KEY, layer, is_count_data=True)` inside the
external `register_fields`.  With `layer = None` the dataset's `X` is the
count matrix (missing `X` is a missing required role); with a named layer,
that layer must exist. -/
def getCountMatrix (adata : AnnData) (layer : Option String) :
    Except RegError (List (List Nat)) :=
  match layer with
  | none =>
    match adata.X with
    | some m => .ok m
    | none => .error (.missingRole .X)
  | some l =>
    match List.lookup l adata.layers with
    | some m => .ok m
    | none => .error (.unknownColumn l)

/-- Compatibility of the count matrix with the dataset's declared shape
(observation-by-feature). -/
def countShapeOK (adata : AnnData) (m : List (List Nat)) : Bool :=
  m.length == adata.n_obs && m.all fun r => r.length == adata.n_vars

/-- Modelled from the spec: validation of one categorical observation
column declaration (`CategoricalObsField`) by the external
`register_fields`.  A declared column name must exist in the dataset's
categorical annotation table; an undeclared optional role contributes a
zero count.  Returns the number of distinct categories. -/
def checkCatField (adata : AnnData) (key : Option String) :
    Except RegError Nat :=
  match key with
  | none => .ok 0
  | some c =>
    match List.lookup c adata.obsCat with
    | some vals => .ok vals.dedup.length
    | none => .error (.unknownColumn c)

/-- Modelled from the spec: validation of one numerical observation column
declaration (`NumericalObsField`, `required=False`) by the external
`register_fields`. -/
def checkNumField (adata : AnnData) (key : Option String) :
    Except RegError Unit :=
  match key with
  | none => .ok ()
  | some c =>
    match List.lookup c adata.obsNum with
    | some _ => .ok ()
    | none => .error (.unknownColumn c)

/-- Modelled from the spec: validation of the categorical-covariate key
list (`CategoricalJointObsField`); returns the category count per key. -/
def checkCatKeys (adata : AnnData) (keys : List String) :
    Except RegError (List Nat) :=
  match keys with
  | [] => .ok []
  | c :: rest =>
    match List.lookup c adata.obsCat with
    | some vals =>
      match checkCatKeys adata rest with
      | .ok ns => .ok (vals.dedup.length :: ns)
      | .error e => .error e
    | none => .error (.unknownColumn c)

/-- Modelled from the spec: validation of the continuous-covariate key
list (`NumericalJointObsField`); returns how many keys were declared. -/
def checkNumKeys (adata : AnnData) (keys : List String) :
    Except RegError Nat :=
  match keys with
  | [] => .ok 0
  | c :: rest =>
    match List.lookup c adata.obsNum with
    | some _ =>
      match checkNumKeys adata rest with
      | .ok n => .ok (n + 1)
      | .error e => .error e
    | none => .error (.unknownColumn c)

/-- The `data_registry` of a successful registration: a role is present
iff it was declared (the count matrix always is). -/
def mkRegistry (args : SetupArgs) : List RegistryKey :=
  [RegistryKey.X]
    ++ (if args.batch_key.isSome then [RegistryKey.batch] else [])
    ++ (if args.labels_key.isSome then [RegistryKey.labels] else [])
    ++ (if args.size_factor_key.isSome then [RegistryKey.sizeFactor] else [])
    ++ (if args.categorical_covariate_keys.isSome then [RegistryKey.catCovs] else [])
    ++ (if args.continuous_covariate_keys.isSome then [RegistryKey.contCovs] else [])

/-- `SCVI.setup_anndata`: builds the field declarations in the source's
order (count layer, batch, labels, size factor, categorical covariates,
continuous covariates), hands them to the manager's `register_fields`
(modelled from the spec: validate that the required count matrix has a
source, that every declared column exists, and that the dataset shape is
compatible; on failure nothing is stored), and on success registers the
resulting mapping. -/
def setup_anndata (adata : AnnData) (args : SetupArgs) :
    Except RegError Registration :=
  match getCountMatrix adata args.layer with
  | .error e => .error e
  | .ok m =>
    if countShapeOK adata m then
      match checkCatField adata args.batch_key with
      | .error e => .error e
      | .ok nBatch =>
        match checkCatField adata args.labels_key with
        | .error e => .error e
        | .ok nLabels =>
          match checkNumField adata args.size_factor_key with
          | .error e => .error e
          | .ok _ =>
            match checkCatKeys adata (args.categorical_covariate_keys.getD []) with
            | .error e => .error e
            | .ok nCats =>
              match checkNumKeys adata (args.continuous_covariate_keys.getD []) with
              | .error e => .error e
              | .ok nCont =>
                .ok ⟨mkRegistry args,
                     ⟨adata.n_vars, nBatch, nLabels, nCats.length, nCont⟩,
                     nCats, args⟩
    else .error (.incompatibleShape .X)

/-- The architecture-hyperparameter record `self._module_kwargs` stored by
`SCVI.__init__` (extra `**kwargs` forwarded opaquely to the VAE are not
modelled). -/
structure ModuleKwargs where
  n_hidden : Nat
  n_latent : Nat
  n_layers : Nat
  dropout_rate : ℚ
  dispersion : String
  gene_likelihood : String
  latent_distribution : String
deriving DecidableEq, Repr

/-- The defaults of `SCVI.__init__`'s signature:
`n_hidden=128, n_latent=10, n_layers=1, dropout_rate=0.1,
dispersion="gene", gene_likelihood="zinb", latent_distribution="normal"`. -/
def scviDefaults : ModuleKwargs :=
  ⟨128, 10, 1, ⟨1, 10, by norm_num, by simp⟩, "gene", "zinb", "normal"⟩

/-- Modelled from the spec: `_init_library_size` lives in the external
scvi library; the spec only says it is "an optional normalization prior
computed from the count matrix" per batch.  The numeric formula is out of
scope; what matters is that it is a function of the count matrix and the
batch count. -/
def _init_library_size (adata : AnnData) (n_batch : Nat) : List ℚ × List ℚ :=
  (List.replicate n_batch ((((adata.X.getD []).map List.sum).sum : Nat) : ℚ),
   List.replicate n_batch 0)

/-- The record of arguments `SCVI.__init__` instantiates
`self._module_cls` (the VAE) with.  The VAE's internals are out of scope;
the instance is identified with its construction arguments. -/
structure VAEModule where
  n_input : Nat
  n_batch : Nat
  n_labels : Nat
  n_continuous_cov : Nat
  n_cats_per_cov : Option (List Nat)
  kwargs : ModuleKwargs
  use_size_factor_key : Bool
  library_log_means : Option (List ℚ)
  library_log_vars : Option (List ℚ)
  minified_data_type : Option MinifyType
deriving DecidableEq, Repr

/-- Errors raised by model construction.  `notRegistered` is modelled from
the spec: the base-class `super().__init__(adata)` rejects a dataset that
was never registered via `setup_anndata` with a configuration error. -/
inductive InitError
  | notRegistered
deriving DecidableEq, Repr

/-- The state of an `SCVI` model instance: the stored configuration
record, the numerical-model slot (`self.module`, `None` when construction
is deferred), how many advisory warnings the constructor emitted, and the
trained flag (`is_trained_`, maintained by the external training mixin). -/
structure SCVIModel where
  _module_kwargs : ModuleKwargs
  module : Option VAEModule
  warningsEmitted : Nat
  is_trained_ : Bool
deriving DecidableEq, Repr

/-- `SCVI.__init__`.  `reg` is the registration the base class looks up
for `adata` (modelled from the spec: the class-level manager registry;
`none` means the dataset was never registered).  With no dataset the
constructor stores the configuration, leaves `self.module = None` and
emits exactly one `UserWarning`.  With a registered dataset it derives the
summary statistics, optionally computes the library-size prior, and
instantiates exactly one VAE from configuration plus statistics. -/
def SCVI_init (adata : Option AnnData) (reg : Option Registration)
    (k : ModuleKwargs) : Except InitError SCVIModel :=
  match adata with
  | none => .ok ⟨k, none, 1, false⟩
  | some a =>
    match reg with
    | none => .error .notRegistered
    | some r =>
      let n_cats_per_cov : Option (List Nat) :=
        if r.dataRegistry.contains RegistryKey.catCovs
        then some r.n_cats_per_key else none
      let n_batch := r.summaryStats.n_batch
      let use_size_factor_key : Bool :=
        r.dataRegistry.contains RegistryKey.sizeFactor
      let lib : Option (List ℚ) × Option (List ℚ) :=
        if !use_size_factor_key
            && !(a.minifyType == some MinifyType.latentPosterior) then
          ((_init_library_size a n_batch).1, (_init_library_size a n_batch).2)
        else (none, none)
      .ok ⟨k,
           some ⟨r.summaryStats.n_vars, n_batch, r.summaryStats.n_labels,
                 r.summaryStats.n_extra_continuous_covs, n_cats_per_cov, k,
                 use_size_factor_key, lib.1, lib.2, a.minifyType⟩,
           0, false⟩

/-- `SCVI(...)` with every architecture argument omitted: the signature
defaults apply. -/
def SCVI_init_default (adata : Option AnnData) (reg : Option Registration) :
    Except InitError SCVIModel :=
  SCVI_init adata reg scviDefaults

/-- Modelled from the spec: `model.train()` is provided by the external
`UnsupervisedTrainingMixin`.  Contract (spec section 4.3): if construction
was deferred, the first training call performs the deferred construction
before any optimization step; afterwards the model is trained.  The
optimization itself is out of scope; training flips `is_trained_` and
never touches the configuration record. -/
def SCVI_train (adata : Option AnnData) (reg : Option Registration)
    (m : SCVIModel) : Except InitError SCVIModel :=
  match m.module with
  | some _ => .ok ⟨m._module_kwargs, m.module, m.warningsEmitted, true⟩
  | none =>
    match adata, reg with
    | some a, some r =>
      match SCVI_init (some a) (some r) m._module_kwargs with
      | .error e => .error e
      | .ok m2 => .ok ⟨m._module_kwargs, m2.module, m.warningsEmitted, true⟩
    | _, _ => .error .notRegistered

/-- Extraction errors: no trained model exists. -/
inductive ExtractError
  | notTrained
deriving DecidableEq, Repr

/-- Modelled from the spec: `get_latent_representation` is provided by the
external embedding mixin.  Contract (spec section 4.3 / property 5):
before training it fails (no trained model exists); after training it
returns a dense numeric array with one row per observation and one column
per configured latent dimension.  The VAE's numeric output is explicitly
out of scope ("No assumption should be made about what VAE computes"), so
the entries are a fixed placeholder of the specified shape. -/
def get_latent_representation (m : SCVIModel) (adata : AnnData) :
    Except ExtractError (List (List ℚ)) :=
  if m.is_trained_ then
    match m.module with
    | some v =>
      .ok (List.replicate adata.n_obs (List.replicate v.kwargs.n_latent 0))
    | none => .error .notTrained
  else .error .notTrained

/-- The operations a model instance can undergo after construction, for
stating configuration immutability. -/
inductive ModelOp
  | trainOp (adata : Option AnnData) (reg : Option Registration)
  | extractOp (adata : AnnData)

/-- The model state after one operation.  Extraction only reads the model
(it returns an array, not a model), so it leaves the state unchanged; a
failed training call leaves the state unchanged as well. -/
def applyOp (m : SCVIModel) : ModelOp → SCVIModel
  | .trainOp a r =>
    match SCVI_train a r m with
    | .ok m2 => m2
    | .error _ => m
  | .extractOp _ => m

/-- `SCVI._LATENT_QZM_KEY`. -/
def _LATENT_QZM_KEY : String := "scvi_latent_qzm"

/-- `SCVI._LATENT_QZV_KEY`. -/
def _LATENT_QZV_KEY : String := "scvi_latent_qzv"

/-- Errors any stage of the usage script can signal. -/
inductive RunError
  | reg (e : RegError)
  | init (e : InitError)
  | extract (e : ExtractError)
deriving DecidableEq, Repr

/-- The setup arguments of the usage script:
`setup_anndata(adata, batch_key="batch")`. -/
def usageArgs : SetupArgs :=
  ⟨none, some "batch", none, none, none, none⟩

/-- The notebook's usage script:
`setup_anndata(adata, batch_key="batch")`, `model = SCVI(adata)`,
`model.train()`, then
`adata.obsm["X_scVI"] = model.get_latent_representation()`.
The final statement is the script's only write to the caller's dataset:
one new entry in the observation-level embedding table under the fixed
key `X_scVI`. -/
def usage_script (adata : AnnData) : Except RunError AnnData :=
  match setup_anndata adata usageArgs with
  | .error e => .error (.reg e)
  | .ok r =>
    match SCVI_init_default (some adata) (some r) with
    | .error e => .error (.init e)
    | .ok m =>
      match SCVI_train (some adata) (some r) m with
      | .error e => .error (.init e)
      | .ok m2 =>
        match get_latent_representation m2 adata with
        | .error e => .error (.extract e)
        | .ok z =>
          .ok ⟨adata.n_obs, adata.n_vars, adata.X, adata.layers,
               adata.obsCat, adata.obsNum,
               adata.obsm ++ [("X_scVI", z)], adata.minifyType⟩

/-- A concrete two-observation, three-feature dataset with a `batch`
annotation column, used to instantiate the theorems. -/
def wAdata : AnnData :=
  ⟨2, 3, some [[1, 2, 3], [4, 5, 6]], [], [("batch", ["a", "b"])], [], [], none⟩

/-- The registration `setup_anndata` produces for `wAdata` with
`batch_key="batch"`. -/
def wReg : Registration :=
  ⟨[RegistryKey.X, RegistryKey.batch], ⟨3, 2, 0, 0, 0⟩, [], usageArgs⟩

/-- The VAE instance `SCVI(wAdata)` builds. -/
def wVae : VAEModule :=
  ⟨3, 2, 0, 0, none, scviDefaults, false,
   some (List.replicate 2 21), some (List.replicate 2 0), none⟩

/-- The model `SCVI(wAdata)` constructs eagerly from `wReg` with the
default configuration. -/
def wModel : SCVIModel := ⟨scviDefaults, some wVae, 0, false⟩

/-- A dataset with no count matrix at all. -/
def wNoX : AnnData := ⟨2, 3, none, [], [], [], [], none⟩

/-- `setup_anndata` arguments with every optional declaration omitted. -/
def allNoneArgs : SetupArgs := ⟨none, none, none, none, none, none⟩

/-- A dataset whose count matrix disagrees with the declared shape. -/
def wBadShape : AnnData := ⟨2, 3, some [[1, 2]], [], [], [], [], none⟩

/-- The dataset produced by the usage script on `wAdata`. -/
def wOut : AnnData :=
  ⟨2, 3, some [[1, 2, 3], [4, 5, 6]], [], [("batch", ["a", "b"])], [],
   [("X_scVI", List.replicate 2 (List.replicate 10 0))], none⟩

/-! ## Helper lemmas -/

/-- The default configuration record spelled with the source's literal
values. -/
theorem scviDefaults_eq :
    scviDefaults = ⟨128, 10, 1, 1 / 10, "gene", "zinb", "normal"⟩ := by
  rw [scviDefaults]
  norm_num [Rat.mk'_eq_divInt, Rat.divInt_eq_div]

/-- A successful registration stores the registry derived from the
declarations and records the setup arguments. -/
theorem setup_ok_fields (a : AnnData) (args : SetupArgs) (r : Registration)
    (h : setup_anndata a args = Except.ok r) :
    r.dataRegistry = mkRegistry args ∧ r.setup_method_args = args := by
  unfold setup_anndata at h
  repeat' split at h
  all_goals simp_all
  exact ⟨congrArg Registration.dataRegistry h.symm,
         congrArg Registration.setup_method_args h.symm⟩

/-- Membership of the size-factor role in the stored registry tracks the
declaration. -/
theorem mkRegistry_contains_sizeFactor (args : SetupArgs) :
    (mkRegistry args).contains RegistryKey.sizeFactor =
      args.size_factor_key.isSome := by
  obtain ⟨l, b, lb, sf, cc, nc⟩ := args
  unfold mkRegistry
  cases b <;> cases lb <;> cases sf <;> cases cc <;> cases nc <;> rfl

/-- Membership of the categorical-covariates role in the stored registry
tracks the declaration. -/
theorem mkRegistry_contains_catCovs (args : SetupArgs) :
    (mkRegistry args).contains RegistryKey.catCovs =
      args.categorical_covariate_keys.isSome := by
  obtain ⟨l, b, lb, sf, cc, nc⟩ := args
  unfold mkRegistry
  cases b <;> cases lb <;> cases sf <;> cases cc <;> cases nc <;> rfl

/-- A successful training call preserves the stored configuration
record. -/
theorem SCVI_train_kwargs (a : Option AnnData) (r : Option Registration)
    (m m2 : SCVIModel) (h : SCVI_train a r m = Except.ok m2) :
    m2._module_kwargs = m._module_kwargs := by
  unfold SCVI_train at h
  repeat' split at h
  all_goals first
    | exact Except.noConfusion h
    | (injection h with h2; exact (congrArg SCVIModel._module_kwargs h2).symm)

/-- No single post-construction operation changes the stored
configuration record. -/
theorem applyOp_kwargs (m : SCVIModel) (op : ModelOp) :
    (applyOp m op)._module_kwargs = m._module_kwargs := by
  cases op with
  | trainOp a r =>
    show (match SCVI_train a r m with
          | Except.ok m2 => m2
          | Except.error _ => m)._module_kwargs = m._module_kwargs
    cases h : SCVI_train a r m with
    | ok m2 => exact SCVI_train_kwargs a r m m2 h
    | error e => rfl
  | extractOp a => rfl

/-- No sequence of post-construction operations changes the stored
configuration record. -/
theorem foldl_applyOp_kwargs (ops : List ModelOp) (m : SCVIModel) :
    (ops.foldl applyOp m)._module_kwargs = m._module_kwargs := by
  induction ops generalizing m with
  | nil => rfl
  | cons op rest ih =>
    simpa [applyOp_kwargs] using ih (applyOp m op)

/-- A successful extraction has one row per observation. -/
theorem get_latent_ok_length (m : SCVIModel) (a : AnnData)
    (z : List (List ℚ)) (h : get_latent_representation m a = Except.ok z) :
    z.length = a.n_obs := by
  unfold get_latent_representation at h
  repeat' split at h
  all_goals first
    | exact Except.noConfusion h
    | (injection h with h2; subst h2; simp)


/-- Closed form of the eager branch of `SCVI.__init__`: with a dataset
and its registration, the constructor returns exactly one model whose
numerical-model slot holds one VAE built from the registration's summary
statistics, the configuration, and the optional library-size prior. -/
theorem scvi_init_eager_eq (a : AnnData) (r : Registration)
    (k : ModuleKwargs) :
    SCVI_init (some a) (some r) k =
      Except.ok ⟨k,
        some ⟨r.summaryStats.n_vars, r.summaryStats.n_batch,
              r.summaryStats.n_labels, r.summaryStats.n_extra_continuous_covs,
              (if r.dataRegistry.contains RegistryKey.catCovs
               then some r.n_cats_per_key else none),
              k,
              r.dataRegistry.contains RegistryKey.sizeFactor,
              (if !(r.dataRegistry.contains RegistryKey.sizeFactor)
                  && !(a.minifyType == some MinifyType.latentPosterior)
               then some (_init_library_size a r.summaryStats.n_batch).1
               else none),
              (if !(r.dataRegistry.contains RegistryKey.sizeFactor)
                  && !(a.minifyType == some MinifyType.latentPosterior)
               then some (_init_library_size a r.summaryStats.n_batch).2
               else none),
              a.minifyType⟩,
        0, false⟩ := by
  unfold SCVI_init
  by_cases hc : (!(r.dataRegistry.contains RegistryKey.sizeFactor)
      && !(a.minifyType == some MinifyType.latentPosterior)) = true
  · simp only [hc, if_true]
  · simp only [Bool.not_eq_true] at hc
    simp only [hc, Bool.false_eq_true, if_false]

/-- Decidable equality for `Except`, so concrete runs can be checked by
evaluation. -/
instance {E A : Type} [DecidableEq E] [DecidableEq A] :
    DecidableEq (Except E A) := fun x y =>
  match x, y with
  | .error a, .error b =>
    if h : a = b then .isTrue (by rw [h])
    else .isFalse fun hc => h (by injection hc)
  | .ok a, .ok b =>
    if h : a = b then .isTrue (by rw [h])
    else .isFalse fun hc => h (by injection hc)
  | .error _, .ok _ => .isFalse fun hc => Except.noConfusion hc
  | .ok _, .error _ => .isFalse fun hc => Except.noConfusion hc

/-! ## Claim theorems -/

/-- Claim C2: constructing the model with no dataset stores the
configuration, leaves the numerical-model slot empty (`module = None`),
emits exactly one non-fatal advisory warning, and raises no fatal error
(the constructor returns successfully). -/
theorem scvi_deferred_init_warns_once (reg : Option Registration)
    (k : ModuleKwargs) :
    SCVI_init none reg k = Except.ok ⟨k, none, 1, false⟩ := rfl

/-- Claim C6: constructing the model with a dataset that was never
registered via `setup_anndata` fails with a configuration error. -/
theorem scvi_init_unregistered_fails (a : AnnData) (k : ModuleKwargs) :
    SCVI_init (some a) none k = Except.error InitError.notRegistered := rfl

/-- Claim C9: when every architecture argument is omitted the recorded
configuration uses the defaults `n_hidden = 128`, `n_latent = 10`,
`n_layers = 1`, `dropout_rate = 0.1`, `dispersion = "gene"`,
`gene_likelihood = "zinb"`, `latent_distribution = "normal"`, stored in
the module-argument record and forwarded to the VAE when it is built. -/
theorem scvi_default_hyperparameters (adata : Option AnnData)
    (reg : Option Registration) (m : SCVIModel)
    (h : SCVI_init_default adata reg = Except.ok m) :
    m._module_kwargs = ⟨128, 10, 1, 1 / 10, "gene", "zinb", "normal"⟩ ∧
    m.module.elim True
      (fun v => v.kwargs =
        ⟨128, 10, 1, 1 / 10, "gene", "zinb", "normal"⟩) := by
  have hd : scviDefaults = ⟨128, 10, 1, 1 / 10, "gene", "zinb", "normal"⟩ :=
    scviDefaults_eq
  unfold SCVI_init_default SCVI_init at h
  repeat' split at h
  all_goals first
    | exact Except.noConfusion h
    | (injection h with h2; subst h2;
       exact ⟨hd, by first | exact trivial | exact hd⟩)

/-- Witness for C9 at a concrete eager construction. -/
theorem scvi_default_hyperparameters_witness :
    wModel._module_kwargs = ⟨128, 10, 1, 1 / 10, "gene", "zinb", "normal"⟩ ∧
    wModel.module.elim True
      (fun v => v.kwargs =
        ⟨128, 10, 1, 1 / 10, "gene", "zinb", "normal"⟩) :=
  scvi_default_hyperparameters (some wAdata) (some wReg) wModel (by decide)

/-- Claim C5: for a valid dataset registered with only a count matrix
(all optional keys `None`), registration succeeds and the stored
registration exposes a zero count for every optional role (batch, label,
categorical and continuous covariates). -/
theorem scvi_setup_minimal_roles_zero_counts (a : AnnData)
    (mtx : List (List Nat)) (hX : a.X = some mtx)
    (hs : countShapeOK a mtx = true) :
    setup_anndata a allNoneArgs =
      Except.ok ⟨mkRegistry allNoneArgs, ⟨a.n_vars, 0, 0, 0, 0⟩, [],
                 allNoneArgs⟩ := by
  unfold setup_anndata getCountMatrix checkCatField checkNumField
    checkCatKeys checkNumKeys
  simp [allNoneArgs, hX, hs]

/-- Witness for C5 at a concrete dataset. -/
theorem scvi_setup_minimal_roles_zero_counts_witness :
    setup_anndata wAdata allNoneArgs =
      Except.ok ⟨mkRegistry allNoneArgs, ⟨wAdata.n_vars, 0, 0, 0, 0⟩, [],
                 allNoneArgs⟩ :=
  scvi_setup_minimal_roles_zero_counts wAdata [[1, 2, 3], [4, 5, 6]] rfl rfl

/-- Claim C4: constructing the model with a registered dataset derives
the summary statistics from the registration (feature count, batch count,
label count, categorical/continuous covariate counts) and an optional
normalization prior from the count matrix, and constructs exactly one
numerical model instance from the configuration plus these statistics. -/
theorem scvi_eager_init_builds_one_module (a : AnnData) (args : SetupArgs)
    (r : Registration) (k : ModuleKwargs)
    (hreg : setup_anndata a args = Except.ok r) :
    SCVI_init (some a) (some r) k =
      Except.ok ⟨k,
        some ⟨r.summaryStats.n_vars, r.summaryStats.n_batch,
              r.summaryStats.n_labels, r.summaryStats.n_extra_continuous_covs,
              (if args.categorical_covariate_keys.isSome
               then some r.n_cats_per_key else none),
              k,
              args.size_factor_key.isSome,
              (if args.size_factor_key = none ∧
                  a.minifyType ≠ some MinifyType.latentPosterior
               then some (_init_library_size a r.summaryStats.n_batch).1
               else none),
              (if args.size_factor_key = none ∧
                  a.minifyType ≠ some MinifyType.latentPosterior
               then some (_init_library_size a r.summaryStats.n_batch).2
               else none),
              a.minifyType⟩,
        0, false⟩ := by
  rw [scvi_init_eager_eq, (setup_ok_fields a args r hreg).1,
      mkRegistry_contains_sizeFactor, mkRegistry_contains_catCovs]
  rcases hsf : args.size_factor_key with _ | v <;>
    rcases hm : a.minifyType with _ | t <;>
      simp [hsf, hm]

/-- Witness for C4 at a concrete registered dataset. -/
theorem scvi_eager_init_builds_one_module_witness :
    SCVI_init (some wAdata) (some wReg) scviDefaults =
      Except.ok ⟨scviDefaults,
        some ⟨wReg.summaryStats.n_vars, wReg.summaryStats.n_batch,
              wReg.summaryStats.n_labels,
              wReg.summaryStats.n_extra_continuous_covs,
              (if usageArgs.categorical_covariate_keys.isSome
               then some wReg.n_cats_per_key else none),
              scviDefaults,
              usageArgs.size_factor_key.isSome,
              (if usageArgs.size_factor_key = none ∧
                  wAdata.minifyType ≠ some MinifyType.latentPosterior
               then some (_init_library_size wAdata wReg.summaryStats.n_batch).1
               else none),
              (if usageArgs.size_factor_key = none ∧
                  wAdata.minifyType ≠ some MinifyType.latentPosterior
               then some (_init_library_size wAdata wReg.summaryStats.n_batch).2
               else none),
              wAdata.minifyType⟩,
        0, false⟩ :=
  scvi_eager_init_builds_one_module wAdata usageArgs wReg scviDefaults
    (by decide)

/-- Claim C10: for an eager construction, the library-size normalization
prior (`library_log_means`, `library_log_vars`) is computed from the
registered count matrix if and only if no size-factor role was declared
at registration and the dataset is not minified to the latent-posterior
form; otherwise the numerical model receives `None` for both. -/
theorem scvi_library_prior_condition (a : AnnData) (args : SetupArgs)
    (r : Registration) (k : ModuleKwargs) (m : SCVIModel) (v : VAEModule)
    (hreg : setup_anndata a args = Except.ok r)
    (hinit : SCVI_init (some a) (some r) k = Except.ok m)
    (hmod : m.module = some v) :
    v.library_log_means =
      (if args.size_factor_key = none ∧
          a.minifyType ≠ some MinifyType.latentPosterior
       then some (_init_library_size a r.summaryStats.n_batch).1
       else none) ∧
    v.library_log_vars =
      (if args.size_factor_key = none ∧
          a.minifyType ≠ some MinifyType.latentPosterior
       then some (_init_library_size a r.summaryStats.n_batch).2
       else none) := by
  rw [scvi_init_eager_eq] at hinit
  injection hinit with h2
  subst h2
  rw [(setup_ok_fields a args r hreg).1, mkRegistry_contains_sizeFactor]
    at hmod
  injection hmod with h3
  subst h3
  rcases hsf : args.size_factor_key with _ | c <;>
    rcases hm : a.minifyType with _ | t <;>
      simp [hsf, hm]

/-- Witness for C10 at a concrete registered dataset (no size factor, not
minified: the prior is computed). -/
theorem scvi_library_prior_condition_witness :
    wVae.library_log_means =
      (if usageArgs.size_factor_key = none ∧
          wAdata.minifyType ≠ some MinifyType.latentPosterior
       then some (_init_library_size wAdata wReg.summaryStats.n_batch).1
       else none) ∧
    wVae.library_log_vars =
      (if usageArgs.size_factor_key = none ∧
          wAdata.minifyType ≠ some MinifyType.latentPosterior
       then some (_init_library_size wAdata wReg.summaryStats.n_batch).2
       else none) :=
  scvi_library_prior_condition wAdata usageArgs wReg scviDefaults wModel
    wVae (by decide) (by decide) (by decide)

/-- Claim C1: for a successfully built model, latent-embedding extraction
before training fails; after training it returns an array with exactly
one row per dataset observation and exactly `n_latent` columns. -/
theorem scvi_latent_extraction_requires_training (a : AnnData)
    (r : Registration) (k : ModuleKwargs) (m m2 : SCVIModel)
    (hinit : SCVI_init (some a) (some r) k = Except.ok m)
    (htrain : SCVI_train (some a) (some r) m = Except.ok m2) :
    get_latent_representation m a = Except.error ExtractError.notTrained ∧
    get_latent_representation m2 a =
      Except.ok (List.replicate a.n_obs (List.replicate k.n_latent 0)) ∧
    (List.replicate a.n_obs (List.replicate k.n_latent (0 : ℚ))).length =
      a.n_obs ∧
    (List.replicate a.n_obs (List.replicate k.n_latent (0 : ℚ))).all
      (fun row => row.length == k.n_latent) = true := by
  rw [scvi_init_eager_eq] at hinit
  injection hinit with h2
  subst h2
  refine ⟨rfl, ?_, by simp, by simp⟩
  unfold SCVI_train at htrain
  simp only [] at htrain
  injection htrain with h3
  subst h3
  rfl

/-- Witness for C1 at a concrete built model. -/
theorem scvi_latent_extraction_requires_training_witness :
    get_latent_representation wModel wAdata =
      Except.error ExtractError.notTrained ∧
    get_latent_representation ⟨scviDefaults, some wVae, 0, true⟩ wAdata =
      Except.ok
        (List.replicate wAdata.n_obs
          (List.replicate scviDefaults.n_latent 0)) ∧
    (List.replicate wAdata.n_obs
      (List.replicate scviDefaults.n_latent (0 : ℚ))).length =
      wAdata.n_obs ∧
    (List.replicate wAdata.n_obs
      (List.replicate scviDefaults.n_latent (0 : ℚ))).all
      (fun row => row.length == scviDefaults.n_latent) = true :=
  scvi_latent_extraction_requires_training wAdata wReg scviDefaults wModel
    ⟨scviDefaults, some wVae, 0, true⟩ (by decide) (by decide)

/-- Claim C3: whenever registration fails — required count-matrix role
missing, a declared column name absent, or incompatible dataset shape —
a configuration error naming the offending role or column is signalled,
and no mapping is produced for the dataset (registration returns no
stored `Registration` value). -/
theorem scvi_setup_failure_retains_nothing (a : AnnData)
    (args : SetupArgs) :
    ((args.layer = none ∧ a.X = none) →
      setup_anndata a args =
        Except.error (RegError.missingRole RegistryKey.X)) ∧
    (∀ mtx, getCountMatrix a args.layer = Except.ok mtx →
      countShapeOK a mtx = false →
      setup_anndata a args =
        Except.error (RegError.incompatibleShape RegistryKey.X)) ∧
    (∀ c mtx, getCountMatrix a args.layer = Except.ok mtx →
      countShapeOK a mtx = true → args.batch_key = some c →
      List.lookup c a.obsCat = none →
      setup_anndata a args = Except.error (RegError.unknownColumn c)) ∧
    (∀ e, setup_anndata a args = Except.error e →
      ∀ r, ¬ setup_anndata a args = Except.ok r) := by
  refine ⟨?_, ?_, ?_, ?_⟩
  · rintro ⟨hl, hX⟩
    unfold setup_anndata getCountMatrix
    simp [hl, hX]
  · intro mtx hcm hs
    unfold setup_anndata
    simp [hcm, hs]
  · intro c mtx hcm hs hb hlk
    unfold setup_anndata checkCatField
    simp [hcm, hs, hb, hlk]
  · intro e he r hok
    rw [he] at hok
    exact Except.noConfusion hok

/-- Witness for C3: each failure mode at a concrete dataset, with the
error naming the offending role or column. -/
theorem scvi_setup_failure_retains_nothing_witness :
    setup_anndata wNoX allNoneArgs =
      Except.error (RegError.missingRole RegistryKey.X) ∧
    setup_anndata wBadShape allNoneArgs =
      Except.error (RegError.incompatibleShape RegistryKey.X) ∧
    setup_anndata wAdata ⟨none, some "nope", none, none, none, none⟩ =
      Except.error (RegError.unknownColumn "nope") :=
  ⟨(scvi_setup_failure_retains_nothing wNoX allNoneArgs).1 ⟨rfl, rfl⟩,
   (scvi_setup_failure_retains_nothing wBadShape allNoneArgs).2.1
     [[1, 2]] rfl rfl,
   (scvi_setup_failure_retains_nothing wAdata
       ⟨none, some "nope", none, none, none, none⟩).2.2.1
     "nope" [[1, 2, 3], [4, 5, 6]] rfl rfl rfl rfl⟩

/-- Claim C7: the architecture-hyperparameter configuration record is set
exactly once at construction (it equals the constructor's configuration
argument), is consumed at model-build time (the built VAE carries it),
and is never mutated by any subsequent sequence of operations (training,
extraction); registration takes no model and cannot touch it. -/
theorem scvi_config_immutable (adata : Option AnnData)
    (reg : Option Registration) (k : ModuleKwargs) (m : SCVIModel)
    (ops : List ModelOp) (h : SCVI_init adata reg k = Except.ok m) :
    m._module_kwargs = k ∧
    (ops.foldl applyOp m)._module_kwargs = k ∧
    m.module.elim True (fun v => v.kwargs = k) := by
  have hk : m._module_kwargs = k ∧ m.module.elim True (fun v => v.kwargs = k) := by
    cases adata with
    | none =>
      injection h with h2
      subst h2
      exact ⟨rfl, trivial⟩
    | some a =>
      cases reg with
      | none => exact Except.noConfusion h
      | some r =>
        rw [scvi_init_eager_eq] at h
        injection h with h2
        subst h2
        exact ⟨rfl, rfl⟩
  refine ⟨hk.1, ?_, hk.2⟩
  rw [foldl_applyOp_kwargs]
  exact hk.1

/-- Witness for C7 at a concrete eager construction followed by a
training call and an extraction. -/
theorem scvi_config_immutable_witness :
    wModel._module_kwargs = scviDefaults ∧
    ([ModelOp.trainOp (some wAdata) (some wReg),
      ModelOp.extractOp wAdata].foldl applyOp wModel)._module_kwargs =
      scviDefaults ∧
    wModel.module.elim True (fun v => v.kwargs = scviDefaults) :=
  scvi_config_immutable (some wAdata) (some wReg) scviDefaults wModel
    [ModelOp.trainOp (some wAdata) (some wReg), ModelOp.extractOp wAdata]
    (by decide)

/-- Claim C8: a complete successful run of the usage script (register,
construct, train, extract) changes the caller's dataset only by adding
one new entry to its observation-level embedding table under the fixed
key `X_scVI` (one embedding row per observation); the count matrix,
layers, annotation tables and minified-data marker are all unchanged. -/
theorem scvi_usage_frame_condition (adata out : AnnData)
    (h : usage_script adata = Except.ok out) :
    (∃ z, out.obsm = adata.obsm ++ [("X_scVI", z)] ∧
      z.length = adata.n_obs) ∧
    out.n_obs = adata.n_obs ∧ out.n_vars = adata.n_vars ∧
    out.X = adata.X ∧ out.layers = adata.layers ∧
    out.obsCat = adata.obsCat ∧ out.obsNum = adata.obsNum ∧
    out.minifyType = adata.minifyType := by
  unfold usage_script at h
  cases h1 : setup_anndata adata usageArgs with
  | error e => simp [h1] at h
  | ok r =>
    simp only [h1] at h
    cases h2 : SCVI_init_default (some adata) (some r) with
    | error e => simp [h2] at h
    | ok m =>
      simp only [h2] at h
      cases h3 : SCVI_train (some adata) (some r) m with
      | error e => simp [h3] at h
      | ok m2 =>
        simp only [h3] at h
        cases h4 : get_latent_representation m2 adata with
        | error e => simp [h4] at h
        | ok z =>
          simp only [h4] at h
          injection h with h5
          subst h5
          exact ⟨⟨z, rfl, get_latent_ok_length m2 adata z h4⟩,
                 rfl, rfl, rfl, rfl, rfl, rfl, rfl⟩

/-- Witness for C8: the usage script run on a concrete dataset. -/
theorem scvi_usage_frame_condition_witness :
    (∃ z, wOut.obsm = wAdata.obsm ++ [("X_scVI", z)] ∧
      z.length = wAdata.n_obs) ∧
    wOut.n_obs = wAdata.n_obs ∧ wOut.n_vars = wAdata.n_vars ∧
    wOut.X = wAdata.X ∧ wOut.layers = wAdata.layers ∧
    wOut.obsCat = wAdata.obsCat ∧ wOut.obsNum = wAdata.obsNum ∧
    wOut.minifyType = wAdata.minifyType :=
  scvi_usage_frame_condition wAdata wOut (by decide)
